import Mathlib

/-!
# netpuppy session core (`cmd/hosts/host.go`)

A shallow embedding of the host factory `NewHost`, of the three `Start`
methods and of the four relay goroutines of `cmd/hosts/host.go`.

Effects are made explicit.  Every call on a collaborator (socket, file,
pseudoterminal, process, raw-mode controller) is recorded as an event of a
trace, and its result is read from an environment record, so that a
function of the source becomes a pure function from the results of its
calls to its return values and its trace.

Two ways of not returning are part of the model.  A goroutine that sends
on an unbuffered channel stays in the send until the other goroutine
receives (`Flow.blocked`), and a method whose deferred call is made through
a nil pointer panics while it returns (`StartResult.panicked`).
-/

set_option linter.unusedVariables false

namespace Netpuppy

/-! ## Data model -/

/-- One octet of a Go byte slice. -/
abbrev Byte := Fin 256

/-- A Go `error` value that is not nil: the text of `Error()` and the answer
of `errors.Is(err, io.EOF)`. -/
structure GoError where
  Error : String
  isEOF : Bool
deriving DecidableEq, Repr

/-- The value built by `errors.New` and `fmt.Errorf`: never end-of-stream. -/
def errorsNew (msg : String) : GoError := { Error := msg, isEOF := false }

/-- The handles the hosts operate on: the socket, the three standard streams
of the process (`os.Stdin`, `os.Stdout`, `os.Stderr`) and the two
pseudoterminal devices. -/
inductive Handle
  | socket | stdin | stdout | stderr | master | pts
deriving DecidableEq, Repr

/-- The observable events.  `T` is the type of the saved terminal state
returned by `ioctl.EnableRawMode`. -/
inductive Ev (T : Type)
  /-- A `Read` on a handle. -/
  | read (h : Handle)
  /-- A `Write` (or `WriteShit`, for the socket) of a payload on a handle. -/
  | write (h : Handle) (bs : List Byte)
  /-- A `Close` on a handle. -/
  | close (h : Handle)
  /-- A `fmt.Printf`: the formatted text is written to `os.Stdout`. -/
  | print (msg : String)
  /-- The send `stopChan <- true`, once it has completed. -/
  | stopSend
  /-- A call of `chCancel`, cancelling the child context. -/
  | cancel
  /-- The deferred `wg.Done()` of a goroutine. -/
  | wgDone
  /-- The call `ioctl.EnableRawMode(fd)`. -/
  | enableRaw (h : Handle)
  /-- The call `ioctl.DisableRawMode(fd, tok)`. -/
  | disableRaw (h : Handle) (tok : T)
  /-- The call `pty.GetPseudoterminalDevices()`. -/
  | ptyAlloc
  /-- The call `GetConnectBackInitiatedShell()`. -/
  | getShell
  /-- The call `cb.shell.Start()`. -/
  | shellStart
  /-- The call `cb.shell.Process.Release()`. -/
  | release
  /-- The call `cb.shell.Process.Kill()`. -/
  | kill
  /-- A run-time panic: a method called through a nil pointer. -/
  | panic
deriving DecidableEq, Repr

/-- Whether an event is a read, a write or a close on the handle `h`.  A
`fmt.Printf` is a write on `os.Stdout`. -/
def Ev.touches {T : Type} : Ev T → Handle → Bool
  | .read k, h => decide (k = h)
  | .write k _, h => decide (k = h)
  | .close k, h => decide (k = h)
  | .print _, h => decide (h = Handle.stdout)
  | _, _ => false

/-- Whether an event is a `fmt.Printf`. -/
def Ev.isPrint {T : Type} : Ev T → Bool
  | .print _ => true
  | _ => false

/-- The payloads of the `Write` calls on the handle `h`, in trace order. -/
def written {T : Type} (h : Handle) : List (Ev T) → List (List Byte)
  | [] => []
  | .write k bs :: rest => if k = h then bs :: written h rest else written h rest
  | _ :: rest => written h rest

/-- The number of `Read` calls on the handle `h`. -/
def readCount {T : Type} (h : Handle) : List (Ev T) → Nat
  | [] => 0
  | .read k :: rest => if k = h then readCount h rest + 1 else readCount h rest
  | _ :: rest => readCount h rest

/-- Modelled from the spec: `conn.Peer`, the connection descriptor, is
declared outside `cmd/hosts`; these are the fields `NewHost` reads. -/
structure Peer where
  ConnectionType : String
  Address : String
  LPort : Int
  RPort : Int
  Shell : Bool
deriving DecidableEq, Repr

/-- Modelled from the spec: `conn.ConnectionGetter`, the connection
acquisition collaborator, is declared outside `cmd/hosts`; each method
returns a socket or an error. -/
structure ConnectionGetter (Sock : Type) where
  GetConnectionFromListener : Int → String → Bool → Except GoError Sock
  GetConnectionFromClient : Int → String → Bool → Except GoError Sock

/-- A call made on the connection getter, with its arguments. -/
inductive ConnCall
  | listener (port : Int) (address : String) (shell : Bool)
  | client (port : Int) (address : String) (shell : Bool)
deriving DecidableEq, Repr

/-- The fields of `exec.Cmd` that `ConnectBackHost.Start` assigns. -/
structure Cmd where
  Stdin : Option Handle
  Stdout : Option Handle
  Stderr : Option Handle
deriving DecidableEq, Repr

/-- The struct `OffensiveHost`. -/
structure OffensiveHost (Sock : Type) where
  socket : Sock
  stdin : Handle
  stdout : Handle
  stderr : Handle
deriving DecidableEq, Repr

/-- The struct `LAMEConnectBackHost`. -/
structure LAMEConnectBackHost (Sock : Type) where
  socket : Sock
  stdin : Handle
  stdout : Handle
  stderr : Handle
deriving DecidableEq, Repr

/-- The struct `ConnectBackHost`; the pointer fields are nil until `Start`
fills them. -/
structure ConnectBackHost (Sock : Type) where
  socket : Sock
  masterDevice : Option Handle
  ptsDevice : Option Handle
  shellBool : Bool
  shell : Option Cmd
deriving DecidableEq, Repr

/-- The interface `Host`: the three types that implement `Start`. -/
inductive Host (Sock : Type)
  | offensive (h : OffensiveHost Sock)
  | lame (h : LAMEConnectBackHost Sock)
  | connectBack (h : ConnectBackHost Sock)
deriving DecidableEq, Repr

/-- The handles a host holds in its fields. -/
def Host.handles {Sock : Type} : Host Sock → List Handle
  | .offensive h => [Handle.socket, h.stdin, h.stdout, h.stderr]
  | .lame h => [Handle.socket, h.stdin, h.stdout, h.stderr]
  | .connectBack h => Handle.socket :: (h.masterDevice.toList ++ h.ptsDevice.toList)

/-- The socket a host owns. -/
def Host.socket {Sock : Type} : Host Sock → Sock
  | .offensive h => h.socket
  | .lame h => h.socket
  | .connectBack h => h.socket

/-- The two return values of `NewHost`, and the calls it made on the
connection getter. -/
structure NewHostResult (Sock : Type) where
  host : Option (Host Sock)
  err : Option GoError
  calls : List ConnCall

/-! ## The host factory -/

/-- The function `NewHost`: a switch on `peer.ConnectionType`. -/
def NewHost {Sock : Type} (peer : Peer) (c : ConnectionGetter Sock) : NewHostResult Sock :=
  if peer.ConnectionType = "offense" then
    match c.GetConnectionFromListener peer.LPort peer.Address peer.Shell with
    | .error err =>
      { host := none
        err := some (errorsNew ("Error getting Listener socket: " ++ err.Error))
        calls := [ConnCall.listener peer.LPort peer.Address peer.Shell] }
    | .ok socket =>
      { host := some (Host.offensive
          { socket := socket, stdin := Handle.stdin, stdout := Handle.stdout,
            stderr := Handle.stderr })
        err := none
        calls := [ConnCall.listener peer.LPort peer.Address peer.Shell] }
  else if peer.ConnectionType = "connect-back" then
    match c.GetConnectionFromClient peer.RPort peer.Address peer.Shell with
    | .error err =>
      { host := none
        err := some (errorsNew ("Error getting Connect Back socket: " ++ err.Error))
        calls := [ConnCall.client peer.RPort peer.Address peer.Shell] }
    | .ok socket =>
      if !peer.Shell then
        { host := some (Host.lame
            { socket := socket, stdin := Handle.stdin, stdout := Handle.stdout,
              stderr := Handle.stderr })
          err := none
          calls := [ConnCall.client peer.RPort peer.Address peer.Shell] }
      else
        { host := some (Host.connectBack
            { socket := socket, masterDevice := none, ptsDevice := none,
              shellBool := peer.Shell, shell := none })
          err := none
          calls := [ConnCall.client peer.RPort peer.Address peer.Shell] }
  else
    { host := none
      err := some (errorsNew "Invalid Shell type when attempting to create host.")
      calls := [] }

/-! ## The relay goroutines -/

/-- Where control is at the end of one pass through a `for` loop: back at
the top of the loop (the end of the body, or `continue`), out of the
goroutine (`return`), or stuck for ever in a send on a channel that nobody
receives from. -/
inductive Flow
  | next | ret | blocked
deriving DecidableEq, Repr

/-- The probe payload `[]byte("hello?")`. -/
def helloProbe : List Byte := [104, 101, 108, 108, 111, 63]

/-- The bytes of the string `"break"`. -/
def breakBytes : List Byte := [98, 114, 101, 97, 107]

/-- What the surroundings answer during one pass of an inbound loop. -/
structure InIter where
  /-- Whether `childContext.Done()` is ready when the `select` runs. -/
  done : Bool
  /-- The bytes returned by `socket.Read()`. -/
  data : List Byte
  /-- The error returned by `socket.Read()`. -/
  rerr : Option GoError
  /-- The error returned by the `Write` on the local endpoint, if called. -/
  werr : Option GoError
  /-- The error returned by `socket.WriteShit([]byte("hello?"))`, if called. -/
  perr : Option GoError
  /-- Whether the outbound goroutine receives from the stop channel after
  this goroutine starts a send on it: false once that goroutine has returned. -/
  recv : Bool
deriving DecidableEq, Repr

/-- What the surroundings answer during one pass of an outbound loop. -/
structure OutIter where
  /-- Whether the child context is already cancelled at the top of the pass. -/
  done : Bool
  /-- Whether a value is ready on the stop channel when the `select` runs. -/
  stop : Bool
  /-- The bytes `buffer[:i]` filled by the `Read` on the local endpoint. -/
  data : List Byte
  /-- The error returned by the `Read` on the local endpoint. -/
  rerr : Option GoError
  /-- The error returned by `socket.WriteShit(buffer[:i])`, if called. -/
  werr : Option GoError
deriving DecidableEq, Repr

/-- A `for` loop whose body is `body`, run against the answers of finitely
many passes.  The result is `Flow.ret` when the body returned,
`Flow.blocked` when it got stuck, and `Flow.next` when every given pass
ended at the top of the loop. -/
def forLoop {I T : Type} (body : I → List (Ev T) × Flow) : List I → List (Ev T) × Flow
  | [] => ([], Flow.next)
  | it :: rest =>
    match body it with
    | (evs, Flow.ret) => (evs, Flow.ret)
    | (evs, Flow.blocked) => (evs, Flow.blocked)
    | (evs, Flow.next) => (evs ++ (forLoop body rest).1, (forLoop body rest).2)

/-- A goroutine: its loop, then its deferred calls (last deferred first)
once the loop has returned.  A goroutine that is stuck runs no deferred
call. -/
def goroutine {I T : Type} (body : I → List (Ev T) × Flow) (deferred : List (Ev T))
    (its : List I) : List (Ev T) × Flow :=
  match forLoop body its with
  | (evs, Flow.ret) => (evs ++ deferred, Flow.ret)
  | (evs, Flow.blocked) => (evs, Flow.blocked)
  | (evs, Flow.next) => (evs, Flow.next)

/-- One pass of the loop of the first goroutine of `OffensiveHost.Start`
(socket to standard output).  `stopChan` has capacity one and the goroutine
returns right after its only send, so the send completes at once, whether
or not the other goroutine receives. -/
def OffensiveHost.inboundIter {Sock : Type} (T : Type) (off : OffensiveHost Sock) (it : InIter) :
    List (Ev T) × Flow :=
  if it.done then
    ([Ev.print "child context done in offense go routine\n"], Flow.ret)
  else
    -- dataFromSocket, err := off.socket.Read()
    if 0 < it.data.length then
      -- _, err = off.stdout.Write(dataFromSocket): `err` now holds the result of the write
      match it.werr with
      | some err =>
        ([Ev.read Handle.socket, Ev.write off.stdout it.data,
          Ev.print ("Error writing data from socket to Offense stdout: " ++ err.Error ++ "\n"),
          Ev.stopSend], Flow.ret)
      | none =>
        -- if err != nil: not taken, `err` is the nil result of the write
        ([Ev.read Handle.socket, Ev.write off.stdout it.data], Flow.next)
    else
      match it.rerr with
      | none => ([Ev.read Handle.socket], Flow.next)
      | some err =>
        if err.isEOF then
          match it.perr with
          | some perr =>
            ([Ev.read Handle.socket, Ev.write Handle.socket helloProbe,
              Ev.print ("Error is: " ++ perr.Error ++ "\n"), Ev.stopSend], Flow.ret)
          | none => ([Ev.read Handle.socket, Ev.write Handle.socket helloProbe], Flow.next)
        else
          ([Ev.read Handle.socket,
            Ev.print ("Error reading from socket to Offense stdout: " ++ err.Error ++ "\n"),
            Ev.stopSend], Flow.ret)

/-- The first goroutine of `OffensiveHost.Start`. -/
def OffensiveHost.inbound {Sock : Type} (T : Type) (off : OffensiveHost Sock) (its : List InIter) :
    List (Ev T) × Flow :=
  goroutine (OffensiveHost.inboundIter T off) [Ev.wgDone] its

/-- One pass of the loop of the second goroutine of `OffensiveHost.Start`
(standard input to socket).  The `select` receives from `stopChan`; the
child context is not consulted. -/
def OffensiveHost.outboundIter {Sock : Type} (T : Type) (off : OffensiveHost Sock) (it : OutIter) :
    List (Ev T) × Flow :=
  if it.stop then
    ([], Flow.ret)
  else
    -- i, TIT_BY_BOO := off.stdin.Read(buffer)
    match it.rerr with
    | some err =>
      if err.isEOF then
        ([Ev.read off.stdin], Flow.next)
      else
        ([Ev.read off.stdin, Ev.print ("Error reading from stdin: " ++ err.Error ++ "\n")],
          Flow.ret)
    | none =>
      match it.werr with
      | some err =>
        ([Ev.read off.stdin, Ev.write Handle.socket it.data,
          Ev.print ("Error writing Stdin to socket: " ++ err.Error ++ "\n")], Flow.ret)
      | none => ([Ev.read off.stdin, Ev.write Handle.socket it.data], Flow.next)

/-- The second goroutine of `OffensiveHost.Start`; `chCancel` and `wg.Done`
are deferred. -/
def OffensiveHost.outbound {Sock : Type} (T : Type) (off : OffensiveHost Sock) (its : List OutIter) :
    List (Ev T) × Flow :=
  goroutine (OffensiveHost.outboundIter T off) [Ev.cancel, Ev.wgDone] its

/-- One pass of the loop of the first goroutine of `ConnectBackHost.Start`
(socket to pseudoterminal master).  `stopSigChan` is unbuffered: a send on
it completes only when the other goroutine receives, and otherwise the
goroutine stays in the send and never reaches its `return`. -/
def ConnectBackHost.inboundIter (T : Type) (it : InIter) : List (Ev T) × Flow :=
  if it.done then
    ([Ev.print "child context done in connect back go routine\n"], Flow.ret)
  else
    -- socketContent, err := cb.socket.Read()
    match it.rerr with
    | some err =>
      if err.isEOF then
        match it.perr with
        | some perr =>
          -- stopSigChan <- true; return
          if it.recv then
            ([Ev.read Handle.socket, Ev.write Handle.socket helloProbe,
              Ev.print ("Error when checking socket connection, might be dead: "
                ++ perr.Error ++ "\n"),
              Ev.stopSend], Flow.ret)
          else
            ([Ev.read Handle.socket, Ev.write Handle.socket helloProbe,
              Ev.print ("Error when checking socket connection, might be dead: "
                ++ perr.Error ++ "\n")], Flow.blocked)
        | none => ([Ev.read Handle.socket, Ev.write Handle.socket helloProbe], Flow.next)
      else
        -- stopSigChan <- true; return
        if it.recv then
          ([Ev.read Handle.socket,
            Ev.print ("Error while reading from socket: " ++ err.Error ++ "\n"),
            Ev.stopSend], Flow.ret)
        else
          ([Ev.read Handle.socket,
            Ev.print ("Error while reading from socket: " ++ err.Error ++ "\n")], Flow.blocked)
    | none =>
      if it.data = breakBytes then
        -- stopSigChan <- true; return
        if it.recv then
          ([Ev.read Handle.socket, Ev.print "69 ACHIEVED\n", Ev.stopSend], Flow.ret)
        else
          ([Ev.read Handle.socket, Ev.print "69 ACHIEVED\n"], Flow.blocked)
      else
        match it.werr with
        | some err =>
          -- stopSigChan <- true; return
          if it.recv then
            ([Ev.read Handle.socket, Ev.write Handle.master it.data,
              Ev.print ("Error writing to master device: " ++ err.Error ++ "\n"),
              Ev.stopSend], Flow.ret)
          else
            ([Ev.read Handle.socket, Ev.write Handle.master it.data,
              Ev.print ("Error writing to master device: " ++ err.Error ++ "\n")], Flow.blocked)
        | none => ([Ev.read Handle.socket, Ev.write Handle.master it.data], Flow.next)

/-- The first goroutine of `ConnectBackHost.Start`. -/
def ConnectBackHost.inbound (T : Type) (its : List InIter) : List (Ev T) × Flow :=
  goroutine (ConnectBackHost.inboundIter T) [Ev.wgDone] its

/-- One pass of the loop of the second goroutine of `ConnectBackHost.Start`
(pseudoterminal master to socket).  The `select` receives from
`stopSigChan`; the child context is not consulted. -/
def ConnectBackHost.outboundIter (T : Type) (it : OutIter) : List (Ev T) × Flow :=
  if it.stop then
    ([Ev.print "Stop signal received from other routine\n"], Flow.ret)
  else
    -- i, err := master.Read(buffer)
    match it.rerr with
    | some err =>
      ([Ev.read Handle.master,
        Ev.print ("Error reading from master device: " ++ err.Error ++ "\n")], Flow.ret)
    | none =>
      match it.werr with
      | some err =>
        ([Ev.read Handle.master, Ev.write Handle.socket it.data,
          Ev.print ("Error writing shit to socket from master device: " ++ err.Error ++ "\n")],
          Flow.ret)
      | none => ([Ev.read Handle.master, Ev.write Handle.socket it.data], Flow.next)

/-- The second goroutine of `ConnectBackHost.Start`; `chCancel` and
`wg.Done` are deferred. -/
def ConnectBackHost.outbound (T : Type) (its : List OutIter) : List (Ev T) × Flow :=
  goroutine (ConnectBackHost.outboundIter T) [Ev.cancel, Ev.wgDone] its

/-! ## The `Start` methods -/

/-- The caller's `context.Context`: whether it is already cancelled. -/
structure Context where
  done : Bool
deriving DecidableEq, Repr

/-- The outcome of a call of a `Start` method: the two operands of the
`return` statement it reached, the trace of the call, and whether a
deferred call panicked while the method was returning.  When `panicked` is
true the panic leaves the method and the caller receives no value. -/
structure StartResult (T : Type) where
  err : Option GoError
  errorCount : Nat
  trace : List (Ev T)
  panicked : Bool

/-- What the surroundings answer during one call of `OffensiveHost.Start`. -/
structure OffensiveEnv (T : Type) where
  /-- The saved terminal state and the error number of `ioctl.EnableRawMode`. -/
  enable : T × Nat
  /-- The text of an error number (its `Error()` method). -/
  errnoText : Nat → String
  /-- The events of the two goroutines, up to the return of `wg.Wait()`. -/
  pump : List (Ev T)
  /-- The error number of `ioctl.DisableRawMode` for a saved state. -/
  disable : T → Nat
  /-- The error returned by `off.socket.Close()`. -/
  socketClose : Option GoError
  /-- The error returned by `off.stdin.Close()`. -/
  stdinClose : Option GoError
  /-- The error returned by `off.stdout.Close()`. -/
  stdoutClose : Option GoError
  /-- The error returned by `off.stderr.Close()`. -/
  stderrClose : Option GoError

/-- What the surroundings answer during one call of `ConnectBackHost.Start`. -/
structure ConnectBackEnv (T : Type) where
  /-- The error returned by `pty.GetPseudoterminalDevices()`. -/
  ptyAlloc : Option GoError
  /-- The error returned by `GetConnectBackInitiatedShell()`. -/
  getShell : Option GoError
  /-- Whether `cb.shell.Process` is nil when the `defer` statements of lines
  244 and 245 evaluate it as their receiver: true for a command that has not
  been started. -/
  processNil : Bool
  /-- The error returned by `cb.shell.Start()` for a command that has not
  been started. -/
  shellStart : Option GoError
  /-- The events of the two goroutines, up to the return of `wg.Wait()`. -/
  pump : List (Ev T)
  /-- The error returned by `pts.Close()` after the pump. -/
  ptsClose : Option GoError
  /-- The error returned by `master.Close()` after the pump. -/
  masterClose : Option GoError
  /-- The error returned by `cb.shell.Process.Release()` after the pump. -/
  release : Option GoError
  /-- The error returned by `cb.shell.Process.Kill()` after the pump. -/
  kill : Option GoError
  /-- The error returned by `cb.socket.Close()`. -/
  socketClose : Option GoError

/-- The statements of `OffensiveHost.Start` after `wg.Wait()`, up to the
`return`: the trace and the final value of `errorCount`. -/
def OffensiveHost.teardown {Sock T : Type} (off : OffensiveHost Sock) (env : OffensiveEnv T)
    (oGTermios : T) : List (Ev T) × Nat := Id.run do
  let mut errorCount := 0
  let mut tr := []
  let errno := env.disable oGTermios
  tr := tr ++ [Ev.disableRaw off.stdin oGTermios]
  if errno ≠ 0 then
    tr := tr ++ [Ev.print ("Error disabling raw mode on Offense termios, error code: "
      ++ env.errnoText errno)]
    errorCount := errorCount + 1
  let mut err := env.socketClose
  tr := tr ++ [Ev.close Handle.socket]
  if let some e := err then
    tr := tr ++ [Ev.print ("Error closing socket on Offense host: " ++ e.Error)]
    errorCount := errorCount + 1
  err := env.stdinClose
  tr := tr ++ [Ev.close off.stdin]
  if let some e := err then
    tr := tr ++ [Ev.print ("Error closing stdin on Offense host: " ++ e.Error)]
    errorCount := errorCount + 1
  err := env.stdoutClose
  tr := tr ++ [Ev.close off.stdout]
  if let some e := err then
    tr := tr ++ [Ev.print ("Error closing stdout on Offense host: " ++ e.Error)]
    errorCount := errorCount + 1
  err := env.stderrClose
  tr := tr ++ [Ev.close off.stderr]
  if let some e := err then
    tr := tr ++ [Ev.print ("Error closing stderr on Offense host: " ++ e.Error)]
    errorCount := errorCount + 1
  return (tr, errorCount)

/-- The method `OffensiveHost.Start`.  The deferred `chCancel` runs at the
final `return`. -/
def OffensiveHost.Start {Sock T : Type} (off : OffensiveHost Sock) (pCtx : Context)
    (env : OffensiveEnv T) : StartResult T :=
  let errorCount := 0
  let oGTermios := env.enable.1
  let errno := env.enable.2
  if errno ≠ 0 then
    { err := some (errorsNew ("Error enabling termios raw mode; returned error code: "
        ++ env.errnoText errno ++ "\n,"))
      errorCount := errorCount
      trace := [Ev.enableRaw off.stdin]
      panicked := false }
  else
    let td := OffensiveHost.teardown off env oGTermios
    { err := none
      errorCount := td.2
      trace := [Ev.enableRaw off.stdin] ++ env.pump ++ td.1 ++ [Ev.cancel]
      panicked := false }

/-- The statements of `ConnectBackHost.Start` after `wg.Wait()`, up to the
`return`: the trace and the final value of `errorCount`.  On entry `err` is
nil, the result of the successful `cb.shell.Start()`.  The results of
`master.Close()` and `cb.socket.Close()` are not assigned to `err`. -/
def ConnectBackHost.teardown {T : Type} (env : ConnectBackEnv T) : List (Ev T) × Nat := Id.run do
  let mut errorCount := 0
  let mut tr := []
  let mut err : Option GoError := none
  err := env.ptsClose
  tr := tr ++ [Ev.close Handle.pts]
  if let some e := err then
    tr := tr ++ [Ev.print ("Error closing PTS on exit: " ++ e.Error ++ "\n")]
    errorCount := errorCount + 1
  tr := tr ++ [Ev.close Handle.master]
  if let some e := err then
    tr := tr ++ [Ev.print ("Error closing master on exit: " ++ e.Error ++ "\n")]
    errorCount := errorCount + 1
  err := env.release
  tr := tr ++ [Ev.release]
  if let some e := err then
    tr := tr ++ [Ev.print ("Error releasing shell prcoess on exit: " ++ e.Error ++ "\n")]
    errorCount := errorCount + 1
  err := env.kill
  tr := tr ++ [Ev.kill]
  if let some e := err then
    tr := tr ++ [Ev.print ("Error killing shell process on exit: " ++ e.Error ++ "\n")]
    errorCount := errorCount + 1
  tr := tr ++ [Ev.close Handle.socket]
  if let some e := err then
    tr := tr ++ [Ev.print ("Error killing shell process on exit: " ++ e.Error ++ "\n")]
    errorCount := errorCount + 1
  return (tr, errorCount)

/-- The method `exec.Cmd.Start` of the standard library, as far as its
refusal goes: a command whose `Process` is already set is refused with
`exec: already started`; otherwise the answer is the one of the
surroundings. -/
def execCmdStart (processNil : Bool) (answer : Option GoError) : Option GoError :=
  if processNil then answer else some (errorsNew "exec: already started")

/-- The deferred calls `cb.shell.Process.Kill()` and
`cb.shell.Process.Release()`, in the order they run.  Their receiver was
evaluated by the `defer` statements of lines 244 and 245: on a nil receiver
each call panics, and the deferred calls that remain still run. -/
def ConnectBackHost.deferredProcess (T : Type) (processNil : Bool) : List (Ev T) :=
  if processNil then [Ev.panic, Ev.panic] else [Ev.kill, Ev.release]

/-- The method `ConnectBackHost.Start`.  The deferred calls run at each
`return`, last deferred first; the assignments to the fields of `cb` and of
`cb.shell` leave no event.  The command returned without an error by
`GetConnectBackInitiatedShell()` is taken to be a non-nil `*exec.Cmd`.  At a
`return` past line 245 the method panics when the receiver of the deferred
`Kill` and `Release` was nil. -/
def ConnectBackHost.Start {Sock T : Type} (cb : ConnectBackHost Sock) (pCtx : Context)
    (env : ConnectBackEnv T) : StartResult T :=
  let errorCount := 0
  match env.ptyAlloc with
  | some err =>
    { err := some err, errorCount := errorCount, trace := [Ev.ptyAlloc], panicked := false }
  | none =>
    match env.getShell with
    | some err =>
      { err := some err
        errorCount := errorCount
        trace := [Ev.ptyAlloc, Ev.getShell] ++ [Ev.close Handle.pts, Ev.close Handle.master]
        panicked := false }
    | none =>
      -- defer cb.shell.Process.Release(); defer cb.shell.Process.Kill()
      match execCmdStart env.processNil env.shellStart with
      | some err =>
        { err := some err
          errorCount := errorCount
          trace := [Ev.ptyAlloc, Ev.getShell, Ev.shellStart]
            ++ ConnectBackHost.deferredProcess T env.processNil
            ++ [Ev.close Handle.pts, Ev.close Handle.master]
          panicked := env.processNil }
      | none =>
        let td := ConnectBackHost.teardown env
        { err := none
          errorCount := td.2
          trace := [Ev.ptyAlloc, Ev.getShell, Ev.shellStart] ++ env.pump ++ td.1
            ++ [Ev.cancel] ++ ConnectBackHost.deferredProcess T env.processNil
            ++ [Ev.close Handle.pts, Ev.close Handle.master]
          panicked := env.processNil }

/-- The method `LAMEConnectBackHost.Start`. -/
def LAMEConnectBackHost.Start {Sock : Type} (T : Type) (lcb : LAMEConnectBackHost Sock)
    (pCtx : Context) : StartResult T :=
  { err := none
    errorCount := 0
    trace := [Ev.print "Eww, who asked for a lame connect back host? gross\n"]
    panicked := false }

/-- What the surroundings answer during a call of `Start` on any host. -/
structure StartEnv (T : Type) where
  offensive : OffensiveEnv T
  connectBack : ConnectBackEnv T

/-- The call `host.Start(ctx)` through the interface `Host`. -/
def Host.Start {Sock T : Type} (host : Host Sock) (pCtx : Context) (env : StartEnv T) :
    StartResult T :=
  match host with
  | .offensive off => off.Start pCtx env.offensive
  | .lame lcb => LAMEConnectBackHost.Start T lcb pCtx
  | .connectBack cb => cb.Start pCtx env.connectBack

/-- The number of failing statements among the five teardown calls of
`OffensiveHost.Start`, for the saved state `tok`. -/
def OffensiveEnv.failed {T : Type} (env : OffensiveEnv T) (tok : T) : Nat :=
  (if env.disable tok ≠ 0 then 1 else 0) + (if env.socketClose.isSome then 1 else 0)
    + (if env.stdinClose.isSome then 1 else 0) + (if env.stdoutClose.isSome then 1 else 0)
    + (if env.stderrClose.isSome then 1 else 0)

/-- The number of failing statements among the five teardown calls of
`ConnectBackHost.Start`. -/
def ConnectBackEnv.failed {T : Type} (env : ConnectBackEnv T) : Nat :=
  (if env.ptsClose.isSome then 1 else 0) + (if env.masterClose.isSome then 1 else 0)
    + (if env.release.isSome then 1 else 0) + (if env.kill.isSome then 1 else 0)
    + (if env.socketClose.isSome then 1 else 0)

/-! ## Sample inputs -/

/-- A read or write error that is not end-of-stream. -/
def sampleError : GoError := { Error := "connection reset by peer", isEOF := false }

/-- The end-of-stream error `io.EOF`. -/
def sampleEOF : GoError := { Error := "EOF", isEOF := true }

/-- A connection getter whose two methods succeed, with sockets 1 and 2. -/
def sampleGetter : ConnectionGetter Nat :=
  { GetConnectionFromListener := fun _ _ _ => Except.ok 1
    GetConnectionFromClient := fun _ _ _ => Except.ok 2 }

/-- A descriptor with an unknown role. -/
def samplePeerBogus : Peer :=
  { ConnectionType := "bogus", Address := "10.0.0.1", LPort := 4444, RPort := 5555, Shell := true }

/-- A connect-back descriptor with the shell flag set. -/
def samplePeerShell : Peer :=
  { ConnectionType := "connect-back", Address := "10.0.0.1", LPort := 4444, RPort := 5555,
    Shell := true }

/-- A connect-back descriptor without the shell flag. -/
def samplePeerLame : Peer :=
  { ConnectionType := "connect-back", Address := "10.0.0.1", LPort := 4444, RPort := 5555,
    Shell := false }

/-- The offensive host `NewHost` builds around socket 1. -/
def sampleOffensive : OffensiveHost Nat :=
  { socket := 1, stdin := Handle.stdin, stdout := Handle.stdout, stderr := Handle.stderr }

/-- The degenerate host `NewHost` builds around socket 2. -/
def sampleLame : LAMEConnectBackHost Nat :=
  { socket := 2, stdin := Handle.stdin, stdout := Handle.stdout, stderr := Handle.stderr }

/-- The connect-back host `NewHost` builds around socket 2. -/
def sampleConnectBack : ConnectBackHost Nat :=
  { socket := 2, masterDevice := none, ptsDevice := none, shellBool := true, shell := none }

/-- An offensive run in which raw mode is enabled (saved state 9), and only
closing standard input fails afterwards. -/
def sampleOffensiveEnv : OffensiveEnv Nat :=
  { enable := (9, 0), errnoText := fun n => toString n, pump := [], disable := fun _ => 0,
    socketClose := none, stdinClose := some sampleError, stdoutClose := none,
    stderrClose := none }

/-- The error `Kill` answers on a process that was released. -/
def sampleReleased : GoError := { Error := "os: process already released", isEOF := false }

/-- A connect-back run in which setup succeeds on a command that was not
started, the two devices and the socket close without error, `Release`
succeeds and the `Kill` that follows it is refused. -/
def sampleKillFails : ConnectBackEnv Nat :=
  { ptyAlloc := none, getShell := none, processNil := true, shellStart := none, pump := [],
    ptsClose := none, masterClose := none, release := none, kill := some sampleReleased,
    socketClose := none }

/-- A caller context that is not cancelled. -/
def sampleContext : Context := { done := false }

/-- Answers for a `Start` through the interface. -/
def sampleStartEnv : StartEnv Nat :=
  { offensive := sampleOffensiveEnv, connectBack := sampleKillFails }

/-- A pass in which the socket read returns the byte `a` together with
end-of-stream, and the write to the local endpoint fails. -/
def sampleEofWriteFails : InIter :=
  { done := false, data := [97], rerr := some sampleEOF, werr := some sampleError,
    perr := none, recv := true }

/-- A pass in which the socket read returns the byte `a` together with an
error that is not end-of-stream, and the write to the local endpoint
succeeds; the outbound goroutine is there to receive from the stop
channel. -/
def sampleDataWithError : InIter :=
  { done := false, data := [97], rerr := some sampleError, werr := none,
    perr := none, recv := true }

/-- A pass in which the socket read returns no byte and end-of-stream, and
the probe write succeeds. -/
def sampleEofProbeOk : InIter :=
  { done := false, data := [], rerr := some sampleEOF, werr := none,
    perr := none, recv := true }

/-- A pass in which the socket read returns no byte and end-of-stream, the
probe write fails, and the outbound goroutine is there to receive from the
stop channel. -/
def sampleEofProbeFails : InIter :=
  { done := false, data := [], rerr := some sampleEOF, werr := none,
    perr := some sampleError, recv := true }

/-- A pass in which the socket read returns the bytes of `break` while the
outbound goroutine is there to receive from the stop channel. -/
def sampleBreak : InIter :=
  { done := false, data := breakBytes, rerr := none, werr := none,
    perr := none, recv := true }

/-- A pass in which the socket read returns the bytes of `break` after the
outbound goroutine has returned: nobody receives from the stop channel. -/
def sampleBreakNoReceiver : InIter :=
  { done := false, data := breakBytes, rerr := none, werr := none,
    perr := none, recv := false }

/-- A pass in which the socket read returns the bytes `ls` and a newline. -/
def sampleLs : InIter :=
  { done := false, data := [108, 115, 10], rerr := none, werr := none,
    perr := none, recv := true }

/-- A pass in which the socket read returns nothing and no error. -/
def sampleIdle : InIter :=
  { done := false, data := [], rerr := none, werr := none,
    perr := none, recv := true }

/-- An inbound pass that starts with the child context cancelled. -/
def sampleCancelledIn : InIter :=
  { done := true, data := [97], rerr := none, werr := none,
    perr := none, recv := true }

/-- An outbound pass that starts with the child context cancelled and no
value on the stop channel; the local read returns the byte `a`. -/
def sampleCancelledOut : OutIter :=
  { done := true, stop := false, data := [97], rerr := none, werr := none }

/-- An outbound pass that starts with a value ready on the stop channel. -/
def sampleStoppedOut : OutIter :=
  { done := false, stop := true, data := [97], rerr := none, werr := none }

/-! ## The host factory: theorems -/

/-- C5: for a descriptor whose role is neither `offense` nor `connect-back`,
and any connection getter, `NewHost` returns a non-nil error and a nil Host,
and calls neither method of the connection getter. -/
theorem NewHost_rejects_unknown_role {Sock : Type} (peer : Peer) (c : ConnectionGetter Sock)
    (h1 : peer.ConnectionType ≠ "offense") (h2 : peer.ConnectionType ≠ "connect-back") :
    (NewHost peer c).err ≠ none ∧ (NewHost peer c).host = none ∧ (NewHost peer c).calls = [] := by
  simp [NewHost, h1, h2]

/-- C5, at the role `bogus`. -/
theorem NewHost_rejects_unknown_role_witness :
    (NewHost samplePeerBogus sampleGetter).err ≠ none
      ∧ (NewHost samplePeerBogus sampleGetter).host = none
      ∧ (NewHost samplePeerBogus sampleGetter).calls = [] :=
  NewHost_rejects_unknown_role samplePeerBogus sampleGetter (by decide) (by decide)

/-- C6: on a recognized role `NewHost` makes exactly one acquisition call:
the listener with (local port, address, shell flag) for `offense`, the
client with (remote port, address, shell flag) for `connect-back`.  If the
call fails, the Host is nil and the message of the error ends with the
message of the acquisition error.  If it succeeds, the error is nil and the
Host owns the acquired socket: an `OffensiveHost` for `offense`, a
`LAMEConnectBackHost` for `connect-back` without the shell flag, and a
`ConnectBackHost` for `connect-back` with the shell flag. -/
theorem NewHost_recognized_role {Sock : Type} (peer : Peer) (c : ConnectionGetter Sock)
    (h : peer.ConnectionType = "offense" ∨ peer.ConnectionType = "connect-back") :
    (peer.ConnectionType = "offense" →
      (NewHost peer c).calls = [ConnCall.listener peer.LPort peer.Address peer.Shell]
      ∧ (∀ e, c.GetConnectionFromListener peer.LPort peer.Address peer.Shell = Except.error e →
          (NewHost peer c).host = none
          ∧ ∃ pre, (NewHost peer c).err = some (errorsNew (pre ++ e.Error)))
      ∧ (∀ s, c.GetConnectionFromListener peer.LPort peer.Address peer.Shell = Except.ok s →
          (NewHost peer c).err = none
          ∧ (NewHost peer c).host = some (Host.offensive
              { socket := s, stdin := Handle.stdin, stdout := Handle.stdout,
                stderr := Handle.stderr })))
    ∧ (peer.ConnectionType = "connect-back" →
      (NewHost peer c).calls = [ConnCall.client peer.RPort peer.Address peer.Shell]
      ∧ (∀ e, c.GetConnectionFromClient peer.RPort peer.Address peer.Shell = Except.error e →
          (NewHost peer c).host = none
          ∧ ∃ pre, (NewHost peer c).err = some (errorsNew (pre ++ e.Error)))
      ∧ (∀ s, c.GetConnectionFromClient peer.RPort peer.Address peer.Shell = Except.ok s →
          (NewHost peer c).err = none
          ∧ (peer.Shell = false → (NewHost peer c).host = some (Host.lame
              { socket := s, stdin := Handle.stdin, stdout := Handle.stdout,
                stderr := Handle.stderr }))
          ∧ (peer.Shell = true → (NewHost peer c).host = some (Host.connectBack
              { socket := s, masterDevice := none, ptsDevice := none, shellBool := true,
                shell := none })))) := by
  constructor
  · intro ho
    refine ⟨?_, ?_, ?_⟩
    · unfold NewHost
      rw [if_pos ho]
      cases c.GetConnectionFromListener peer.LPort peer.Address peer.Shell <;> rfl
    · intro e he
      unfold NewHost
      rw [if_pos ho, he]
      exact ⟨rfl, "Error getting Listener socket: ", rfl⟩
    · intro s hs
      unfold NewHost
      rw [if_pos ho, hs]
      exact ⟨rfl, rfl⟩
  · intro hc
    have hno : ¬ peer.ConnectionType = "offense" := by
      rw [hc]
      decide
    refine ⟨?_, ?_, ?_⟩
    · unfold NewHost
      rw [if_neg hno, if_pos hc]
      cases c.GetConnectionFromClient peer.RPort peer.Address peer.Shell with
      | error e => rfl
      | ok s => cases peer.Shell <;> rfl
    · intro e he
      unfold NewHost
      rw [if_neg hno, if_pos hc, he]
      exact ⟨rfl, "Error getting Connect Back socket: ", rfl⟩
    · intro s hs
      unfold NewHost
      rw [if_neg hno, if_pos hc, hs]
      refine ⟨?_, ?_, ?_⟩
      · cases peer.Shell <;> rfl
      · intro hf
        simp [hf]
      · intro ht
        simp [ht]

/-- C6, at a connect-back descriptor with the shell flag: one client call
with the remote port, and a `ConnectBackHost` around the acquired socket. -/
theorem NewHost_recognized_role_witness :
    (samplePeerShell.ConnectionType = "offense" ∨ samplePeerShell.ConnectionType = "connect-back")
      ∧ (NewHost samplePeerShell sampleGetter).calls = [ConnCall.client 5555 "10.0.0.1" true]
      ∧ (NewHost samplePeerShell sampleGetter).host = some (Host.connectBack sampleConnectBack) :=
  ⟨Or.inr rfl,
    ((NewHost_recognized_role samplePeerShell sampleGetter (Or.inr rfl)).2 rfl).1,
    ((((NewHost_recognized_role samplePeerShell sampleGetter (Or.inr rfl)).2 rfl).2.2
      2 rfl).2.2 rfl)⟩

/-! ## The relay goroutines: theorems -/

section Relay

variable {Sock T : Type}

/-- A pass that ends at the top of the loop is followed by the rest of the run. -/
theorem goroutine_cons_next {I : Type} (body : I → List (Ev T) × Flow) (deferred : List (Ev T))
    (it : I) (rest : List I) (evs : List (Ev T)) (hb : body it = (evs, Flow.next)) :
    goroutine body deferred (it :: rest)
      = (evs ++ (goroutine body deferred rest).1, (goroutine body deferred rest).2) := by
  unfold goroutine
  simp only [forLoop, hb]
  rcases hf : forLoop body rest with ⟨tr, fl⟩
  cases fl <;> simp

/-- A pass that returns ends the goroutine: only the deferred calls follow. -/
theorem goroutine_cons_ret {I : Type} (body : I → List (Ev T) × Flow) (deferred : List (Ev T))
    (it : I) (rest : List I) (evs : List (Ev T)) (hb : body it = (evs, Flow.ret)) :
    goroutine body deferred (it :: rest) = (evs ++ deferred, Flow.ret) := by
  unfold goroutine
  simp only [forLoop, hb]

/-- With no pass to run, a goroutine has done nothing and is still looping. -/
theorem goroutine_nil {I : Type} (body : I → List (Ev T) × Flow) (deferred : List (Ev T)) :
    goroutine body deferred [] = ([], Flow.next) := by
  simp [goroutine, forLoop]

/-- The payloads written in a concatenated trace. -/
theorem written_append (h : Handle) (a b : List (Ev T)) :
    written h (a ++ b) = written h a ++ written h b := by
  induction a with
  | nil => rfl
  | cons e a ih =>
    cases e with
    | write k bs => by_cases hk : k = h <;> simp [written, hk, ih]
    | _ => simp [written, ih]

/-- The reads counted in a concatenated trace. -/
theorem readCount_append (h : Handle) (a b : List (Ev T)) :
    readCount h (a ++ b) = readCount h a + readCount h b := by
  induction a with
  | nil => simp [readCount]
  | cons e a ih =>
    cases e with
    | read k =>
      by_cases hk : k = h
      · simp [readCount, hk, ih]
        omega
      · simp [readCount, hk, ih]
    | _ => simp [readCount, ih]

/-- The offensive inbound goroutine on passes whose socket read and local
write all succeed: it is still looping, has read the socket once per pass,
has printed nothing, and has written to standard output exactly the bytes
it read. -/
theorem OffensiveHost_inbound_all_ok (off : OffensiveHost Sock) (its : List InIter)
    (h : ∀ it ∈ its, it.done = false ∧ it.rerr = none ∧ it.werr = none) :
    (OffensiveHost.inbound T off its).2 = Flow.next
      ∧ (∀ e ∈ (OffensiveHost.inbound T off its).1, e = Ev.read Handle.socket
          ∨ ∃ bs, e = Ev.write off.stdout bs)
      ∧ readCount Handle.socket (OffensiveHost.inbound T off its).1 = its.length
      ∧ (written off.stdout (OffensiveHost.inbound T off its).1).flatten
          = (its.map InIter.data).flatten := by
  induction its with
  | nil => simp [OffensiveHost.inbound, goroutine_nil, written, readCount]
  | cons it rest ih =>
    have hit := h it (List.mem_cons_self _ _)
    have ih := ih (fun x hx => h x (List.mem_cons_of_mem _ hx))
    unfold OffensiveHost.inbound at ih ⊢
    by_cases hlen : 0 < it.data.length
    · have hb : OffensiveHost.inboundIter T off it
          = ([Ev.read Handle.socket, Ev.write off.stdout it.data], Flow.next) := by
        simp [OffensiveHost.inboundIter, hit.1, hit.2.2, hlen]
      rw [goroutine_cons_next _ _ _ _ _ hb]
      refine ⟨ih.1, ?_, ?_, ?_⟩
      · intro e he
        simp only [List.mem_append, List.mem_cons, List.mem_singleton, List.not_mem_nil,
          or_false] at he
        rcases he with (he | he) | he
        · exact Or.inl he
        · exact Or.inr ⟨_, he⟩
        · exact ih.2.1 e he
      · rw [readCount_append, ih.2.2.1]
        simp [readCount]
        omega
      · rw [written_append, List.flatten_append, ih.2.2.2]
        simp [written]
    · have hnil : it.data = [] := by
        cases hd : it.data with
        | nil => rfl
        | cons b bs => simp [hd] at hlen
      have hb : OffensiveHost.inboundIter T off it = ([Ev.read Handle.socket], Flow.next) := by
        simp [OffensiveHost.inboundIter, hit.1, hit.2.1, hnil]
      rw [goroutine_cons_next _ _ _ _ _ hb]
      refine ⟨ih.1, ?_, ?_, ?_⟩
      · intro e he
        simp only [List.mem_append, List.mem_singleton] at he
        rcases he with he | he
        · exact Or.inl he
        · exact ih.2.1 e he
      · rw [readCount_append, ih.2.2.1]
        simp [readCount]
        omega
      · rw [written_append, List.flatten_append, ih.2.2.2]
        simp [written, hnil]

/-- The connect-back inbound goroutine on passes whose socket read and
master write all succeed and never deliver the bytes of `break`: it is
still looping, has read the socket once per pass, has printed nothing, and
has written to the master exactly the bytes it read. -/
theorem ConnectBackHost_inbound_all_ok (its : List InIter)
    (h : ∀ it ∈ its, it.done = false ∧ it.rerr = none ∧ it.werr = none)
    (hb : ∀ it ∈ its, it.data ≠ breakBytes) :
    (ConnectBackHost.inbound T its).2 = Flow.next
      ∧ (∀ e ∈ (ConnectBackHost.inbound T its).1, e = Ev.read Handle.socket
          ∨ ∃ bs, e = Ev.write Handle.master bs)
      ∧ readCount Handle.socket (ConnectBackHost.inbound T its).1 = its.length
      ∧ (written Handle.master (ConnectBackHost.inbound T its).1).flatten
          = (its.map InIter.data).flatten := by
  induction its with
  | nil => simp [ConnectBackHost.inbound, goroutine_nil, written, readCount]
  | cons it rest ih =>
    have hit := h it (List.mem_cons_self _ _)
    have hbr := hb it (List.mem_cons_self _ _)
    have ih := ih (fun x hx => h x (List.mem_cons_of_mem _ hx))
      (fun x hx => hb x (List.mem_cons_of_mem _ hx))
    unfold ConnectBackHost.inbound at ih ⊢
    have hstep : ConnectBackHost.inboundIter T it
        = ([Ev.read Handle.socket, Ev.write Handle.master it.data], Flow.next) := by
      simp [ConnectBackHost.inboundIter, hit.1, hit.2.1, hit.2.2, hbr]
    rw [goroutine_cons_next _ _ _ _ _ hstep]
    refine ⟨ih.1, ?_, ?_, ?_⟩
    · intro e he
      simp only [List.mem_append, List.mem_cons, List.mem_singleton, List.not_mem_nil,
        or_false] at he
      rcases he with (he | he) | he
      · exact Or.inl he
      · exact Or.inr ⟨_, he⟩
      · exact ih.2.1 e he
    · rw [readCount_append, ih.2.2.1]
      simp [readCount]
      omega
    · rw [written_append, List.flatten_append, ih.2.2.2]
      simp [written]

/-- C2, as stated, fails for the offensive host: the socket read returns the
byte `a` together with end-of-stream and the write to standard output
fails; the goroutine sends the stop signal and returns, and no probe is
written to the socket. -/
theorem OffensiveHost_inbound_eof_without_probe :
    sampleEofWriteFails.done = false
      ∧ sampleEofWriteFails.rerr = some sampleEOF
      ∧ sampleEOF.isEOF = true
      ∧ OffensiveHost.inboundIter Nat sampleOffensive sampleEofWriteFails
          = ([Ev.read Handle.socket, Ev.write Handle.stdout [97],
              Ev.print "Error writing data from socket to Offense stdout: connection reset by peer\n",
              Ev.stopSend], Flow.ret)
      ∧ Ev.write Handle.socket helloProbe
          ∉ (OffensiveHost.inboundIter Nat sampleOffensive sampleEofWriteFails).1 := by
  decide

/-- C2 (amended): in a pass that is not cancelled and whose socket read
returns end-of-stream, (a) the connect-back inbound goroutine, whatever
bytes came with it, writes the probe `hello?` to the socket; if the probe
write succeeds it sends no stop signal and goes on with the next pass, and
if it fails and the outbound goroutine receives from the stop channel, it
sends the stop signal and returns; (b) the offensive inbound goroutine,
when the read returned no bytes, writes the probe, goes on without a stop
signal if the probe write succeeds, and sends the stop signal and returns
if it fails; (c) when the read returned bytes and their write to standard
output fails, the offensive inbound goroutine sends the stop signal and
returns without a probe. -/
theorem inbound_eof_probe (off : OffensiveHost Sock) (it : InIter) (rest : List InIter)
    (e : GoError) (hd : it.done = false) (hr : it.rerr = some e) (he : e.isEOF = true) :
    (Ev.write Handle.socket helloProbe ∈ (ConnectBackHost.inboundIter T it).1
      ∧ (it.perr = none →
          Ev.stopSend ∉ (ConnectBackHost.inboundIter T it).1
          ∧ (ConnectBackHost.inboundIter T it).2 = Flow.next
          ∧ ConnectBackHost.inbound T (it :: rest)
              = ((ConnectBackHost.inboundIter T it).1 ++ (ConnectBackHost.inbound T rest).1,
                  (ConnectBackHost.inbound T rest).2))
      ∧ (it.perr ≠ none → it.recv = true →
          Ev.stopSend ∈ (ConnectBackHost.inboundIter T it).1
          ∧ (ConnectBackHost.inboundIter T it).2 = Flow.ret))
    ∧ (it.data = [] →
        Ev.write Handle.socket helloProbe ∈ (OffensiveHost.inboundIter T off it).1
        ∧ (it.perr = none →
            Ev.stopSend ∉ (OffensiveHost.inboundIter T off it).1
            ∧ (OffensiveHost.inboundIter T off it).2 = Flow.next
            ∧ OffensiveHost.inbound T off (it :: rest)
                = ((OffensiveHost.inboundIter T off it).1 ++ (OffensiveHost.inbound T off rest).1,
                    (OffensiveHost.inbound T off rest).2))
        ∧ (it.perr ≠ none →
            Ev.stopSend ∈ (OffensiveHost.inboundIter T off it).1
            ∧ (OffensiveHost.inboundIter T off it).2 = Flow.ret))
    ∧ (it.data ≠ [] → it.werr ≠ none →
        ∃ msg, OffensiveHost.inboundIter T off it
          = ([Ev.read Handle.socket, Ev.write off.stdout it.data, Ev.print msg, Ev.stopSend],
              Flow.ret)) := by
  refine ⟨⟨?_, ?_, ?_⟩, ?_, ?_⟩
  · cases hp : it.perr <;> cases hrecv : it.recv <;>
      simp [ConnectBackHost.inboundIter, hd, hr, he, hp, hrecv]
  · intro hp
    have hb : ConnectBackHost.inboundIter T it
        = ([Ev.read Handle.socket, Ev.write Handle.socket helloProbe], Flow.next) := by
      simp [ConnectBackHost.inboundIter, hd, hr, he, hp]
    refine ⟨?_, ?_, ?_⟩
    · simp [hb]
    · simp [hb]
    · unfold ConnectBackHost.inbound
      rw [goroutine_cons_next _ _ _ _ _ hb, hb]
  · intro hp hrecv
    cases hp' : it.perr with
    | none => exact absurd hp' hp
    | some pe => simp [ConnectBackHost.inboundIter, hd, hr, he, hp', hrecv]
  · intro hdata
    refine ⟨?_, ?_, ?_⟩
    · cases hp : it.perr <;> simp [OffensiveHost.inboundIter, hd, hr, he, hp, hdata]
    · intro hp
      have hb : OffensiveHost.inboundIter T off it
          = ([Ev.read Handle.socket, Ev.write Handle.socket helloProbe], Flow.next) := by
        simp [OffensiveHost.inboundIter, hd, hr, he, hp, hdata]
      refine ⟨?_, ?_, ?_⟩
      · simp [hb]
      · simp [hb]
      · unfold OffensiveHost.inbound
        rw [goroutine_cons_next _ _ _ _ _ hb, hb]
    · intro hp
      cases hp' : it.perr with
      | none => exact absurd hp' hp
      | some pe => simp [OffensiveHost.inboundIter, hd, hr, he, hp', hdata]
  · intro hdata hw
    have hlen : 0 < it.data.length := List.length_pos.mpr hdata
    cases hw' : it.werr with
    | none => exact absurd hw' hw
    | some we =>
      refine ⟨"Error writing data from socket to Offense stdout: " ++ we.Error ++ "\n", ?_⟩
      simp [OffensiveHost.inboundIter, hd, hw', hlen]

/-- C2 (amended), at a read of no bytes with end-of-stream: when the probe
write succeeds the offensive inbound goroutine writes the probe and goes
on; when the probe write fails and the outbound goroutine receives, the
connect-back inbound goroutine sends the stop signal and returns. -/
theorem inbound_eof_probe_witness :
    sampleEofProbeOk.done = false
      ∧ sampleEofProbeOk.rerr = some sampleEOF
      ∧ sampleEOF.isEOF = true
      ∧ Ev.write Handle.socket helloProbe
          ∈ (OffensiveHost.inboundIter Nat sampleOffensive sampleEofProbeOk).1
      ∧ (OffensiveHost.inboundIter Nat sampleOffensive sampleEofProbeOk).2 = Flow.next
      ∧ sampleEofProbeFails.recv = true
      ∧ Ev.stopSend ∈ (ConnectBackHost.inboundIter Nat sampleEofProbeFails).1
      ∧ (ConnectBackHost.inboundIter Nat sampleEofProbeFails).2 = Flow.ret :=
  ⟨rfl, rfl, rfl,
    ((inbound_eof_probe sampleOffensive sampleEofProbeOk [] sampleEOF rfl rfl rfl).2.1 rfl).1,
    (((inbound_eof_probe sampleOffensive sampleEofProbeOk [] sampleEOF rfl rfl rfl).2.1 rfl).2.1
      rfl).2.1,
    rfl,
    ((inbound_eof_probe sampleOffensive sampleEofProbeFails [] sampleEOF rfl rfl rfl).1.2.2
      (by decide) rfl).1,
    ((inbound_eof_probe sampleOffensive sampleEofProbeFails [] sampleEOF rfl rfl rfl).1.2.2
      (by decide) rfl).2⟩

/-- C3, as stated, fails for the connect-back host: one successful socket
read delivers the bytes of `break`, and nothing is written to the master. -/
theorem ConnectBackHost_inbound_drops_break :
    (∀ it ∈ [sampleBreak], it.done = false ∧ it.rerr = none ∧ it.werr = none)
      ∧ ([sampleBreak].map InIter.data).flatten = breakBytes
      ∧ (written Handle.master (ConnectBackHost.inbound Nat [sampleBreak]).1).flatten = []
      ∧ (written Handle.master (ConnectBackHost.inbound Nat [sampleBreak]).1).flatten
          ≠ ([sampleBreak].map InIter.data).flatten := by
  decide

/-- C3 (amended): for every finite sequence of passes whose socket read and
local write succeed, without cancellation, the offensive inbound goroutine
reads the socket once per pass, performs nothing but socket reads and
writes to standard output, and the chunks it writes to standard output,
concatenated, equal the concatenation of the chunks read.  The same holds
for the connect-back inbound goroutine and the pseudoterminal master when
no chunk read is the bytes of `break`. -/
theorem inbound_relays_socket_bytes (off : OffensiveHost Sock) (its : List InIter)
    (h : ∀ it ∈ its, it.done = false ∧ it.rerr = none ∧ it.werr = none) :
    (readCount Handle.socket (OffensiveHost.inbound T off its).1 = its.length
      ∧ (∀ e ∈ (OffensiveHost.inbound T off its).1, e = Ev.read Handle.socket
          ∨ ∃ bs, e = Ev.write off.stdout bs)
      ∧ (written off.stdout (OffensiveHost.inbound T off its).1).flatten
          = (its.map InIter.data).flatten)
    ∧ ((∀ it ∈ its, it.data ≠ breakBytes) →
      readCount Handle.socket (ConnectBackHost.inbound T its).1 = its.length
      ∧ (∀ e ∈ (ConnectBackHost.inbound T its).1, e = Ev.read Handle.socket
          ∨ ∃ bs, e = Ev.write Handle.master bs)
      ∧ (written Handle.master (ConnectBackHost.inbound T its).1).flatten
          = (its.map InIter.data).flatten) := by
  constructor
  · have := @OffensiveHost_inbound_all_ok Sock T off its h
    exact ⟨this.2.2.1, this.2.1, this.2.2.2⟩
  · intro hb
    have := @ConnectBackHost_inbound_all_ok T its h hb
    exact ⟨this.2.2.1, this.2.1, this.2.2.2⟩

/-- C3 (amended), at the reads `ls\n`, nothing, `ls\n`: both goroutines
write `ls\nls\n` to their local endpoint. -/
theorem inbound_relays_socket_bytes_witness :
    (∀ it ∈ [sampleLs, sampleIdle, sampleLs], it.done = false ∧ it.rerr = none ∧ it.werr = none)
      ∧ (written Handle.stdout
          (OffensiveHost.inbound Nat sampleOffensive [sampleLs, sampleIdle, sampleLs]).1).flatten
          = [108, 115, 10, 108, 115, 10]
      ∧ (written Handle.master
          (ConnectBackHost.inbound Nat [sampleLs, sampleIdle, sampleLs]).1).flatten
          = [108, 115, 10, 108, 115, 10] :=
  ⟨by decide,
    (inbound_relays_socket_bytes sampleOffensive [sampleLs, sampleIdle, sampleLs]
      (by decide)).1.2.2,
    ((inbound_relays_socket_bytes sampleOffensive [sampleLs, sampleIdle, sampleLs]
      (by decide)).2 (by decide)).2.2⟩

/-- What holds of the sentinel in every pass of the connect-back inbound
goroutine that is not cancelled and whose socket read succeeds: on the
bytes of `break` the goroutine reads the socket once and writes nothing to
the socket or to the master, and it sends the stop signal and returns in
that pass when the outbound goroutine receives from the stop channel; any
other payload is written to the master. -/
theorem ConnectBackHost_inbound_sentinel_received (it : InIter) (rest : List InIter)
    (hd : it.done = false) (hr : it.rerr = none) :
    (it.data = breakBytes →
      (∀ h bs, Ev.write h bs ∉ (ConnectBackHost.inboundIter T it).1)
      ∧ readCount Handle.socket (ConnectBackHost.inboundIter T it).1 = 1
      ∧ (it.recv = true →
          Ev.stopSend ∈ (ConnectBackHost.inboundIter T it).1
          ∧ (ConnectBackHost.inboundIter T it).2 = Flow.ret
          ∧ ConnectBackHost.inbound T (it :: rest)
              = ((ConnectBackHost.inboundIter T it).1 ++ [Ev.wgDone], Flow.ret))
      ∧ (it.recv = false →
          Ev.stopSend ∉ (ConnectBackHost.inboundIter T it).1
          ∧ (ConnectBackHost.inboundIter T it).2 = Flow.blocked))
    ∧ (it.data ≠ breakBytes →
      Ev.write Handle.master it.data ∈ (ConnectBackHost.inboundIter T it).1) := by
  constructor
  · intro hb
    refine ⟨?_, ?_, ?_, ?_⟩
    · intro h bs
      cases hrecv : it.recv <;> simp [ConnectBackHost.inboundIter, hd, hr, hb, hrecv]
    · cases hrecv : it.recv <;>
        simp [ConnectBackHost.inboundIter, hd, hr, hb, hrecv, readCount]
    · intro hrecv
      have hstep : ConnectBackHost.inboundIter T it
          = ([Ev.read Handle.socket, Ev.print "69 ACHIEVED\n", Ev.stopSend], Flow.ret) := by
        simp [ConnectBackHost.inboundIter, hd, hr, hb, hrecv]
      refine ⟨?_, ?_, ?_⟩
      · simp [hstep]
      · simp [hstep]
      · unfold ConnectBackHost.inbound
        rw [goroutine_cons_ret _ _ _ _ _ hstep, hstep]
    · intro hrecv
      simp [ConnectBackHost.inboundIter, hd, hr, hb, hrecv]
  · intro hb
    cases hw : it.werr <;> cases hrecv : it.recv <;>
      simp [ConnectBackHost.inboundIter, hd, hr, hb, hw, hrecv]

/-- C4, evaluated where the code departs from it: the socket read succeeds
with exactly the bytes of `break` after the outbound goroutine has
returned.  The goroutine prints its line and starts the send on the
unbuffered stop channel; the send never completes, so no stop signal is
delivered, the goroutine does not return and its deferred `wg.Done()` does
not run.  Nothing is written to the socket or to the master. -/
theorem ConnectBackHost_inbound_sentinel_blocks :
    sampleBreakNoReceiver.done = false
      ∧ sampleBreakNoReceiver.rerr = none
      ∧ sampleBreakNoReceiver.data = breakBytes
      ∧ sampleBreakNoReceiver.recv = false
      ∧ ConnectBackHost.inboundIter Nat sampleBreakNoReceiver
          = ([Ev.read Handle.socket, Ev.print "69 ACHIEVED\n"], Flow.blocked)
      ∧ ConnectBackHost.inbound Nat [sampleBreakNoReceiver, sampleLs]
          = ([Ev.read Handle.socket, Ev.print "69 ACHIEVED\n"], Flow.blocked)
      ∧ Ev.stopSend ∉ (ConnectBackHost.inbound Nat [sampleBreakNoReceiver, sampleLs]).1
      ∧ Ev.wgDone ∉ (ConnectBackHost.inbound Nat [sampleBreakNoReceiver, sampleLs]).1 := by
  decide

/-- C9, evaluated where the code departs from it: the socket read returns
the byte `a` together with an error that is not end-of-stream and the write
to standard output succeeds; the offensive inbound goroutine sends no stop
signal, does not return, and reads the socket again in the next pass. -/
theorem OffensiveHost_inbound_drops_read_error :
    sampleDataWithError.done = false
      ∧ sampleDataWithError.rerr = some sampleError
      ∧ sampleError.isEOF = false
      ∧ OffensiveHost.inboundIter Nat sampleOffensive sampleDataWithError
          = ([Ev.read Handle.socket, Ev.write Handle.stdout [97]], Flow.next)
      ∧ OffensiveHost.inbound Nat sampleOffensive [sampleDataWithError, sampleIdle]
          = ([Ev.read Handle.socket, Ev.write Handle.stdout [97], Ev.read Handle.socket],
              Flow.next)
      ∧ ConnectBackHost.inboundIter Nat sampleDataWithError
          = ([Ev.read Handle.socket,
              Ev.print "Error while reading from socket: connection reset by peer\n",
              Ev.stopSend], Flow.ret) := by
  decide

/-- C10, as stated, fails for the outbound goroutines: in a pass that
starts with the child context cancelled and no value on the stop channel,
each of them reads its local endpoint and writes to the socket. -/
theorem outbound_reads_after_cancellation :
    sampleCancelledOut.done = true
      ∧ OffensiveHost.outboundIter Nat sampleOffensive sampleCancelledOut
          = ([Ev.read Handle.stdin, Ev.write Handle.socket [97]], Flow.next)
      ∧ ConnectBackHost.outboundIter Nat sampleCancelledOut
          = ([Ev.read Handle.master, Ev.write Handle.socket [97]], Flow.next) := by
  decide

/-- C10 (amended): an inbound goroutine polls the child context: in a pass
that starts with the context cancelled it prints one line and returns,
without a read and without a `Write` on any handle.  An outbound goroutine
polls the stop channel instead, and never the context: in a pass that
starts with a value ready on the stop channel it returns without a read and
without a `Write` (the connect-back one prints one line), and what it does
in a pass does not depend on whether the context is cancelled. -/
theorem cancellation_and_stop_polls (off : OffensiveHost Sock) (it : InIter) (ot : OutIter) :
    (it.done = true →
      OffensiveHost.inboundIter T off it
        = ([Ev.print "child context done in offense go routine\n"], Flow.ret)
      ∧ ConnectBackHost.inboundIter T it
        = ([Ev.print "child context done in connect back go routine\n"], Flow.ret))
    ∧ (ot.stop = true →
      OffensiveHost.outboundIter T off ot = ([], Flow.ret)
      ∧ ConnectBackHost.outboundIter T ot
        = ([Ev.print "Stop signal received from other routine\n"], Flow.ret))
    ∧ OffensiveHost.outboundIter T off { ot with done := true }
        = OffensiveHost.outboundIter T off { ot with done := false }
    ∧ ConnectBackHost.outboundIter T { ot with done := true }
        = ConnectBackHost.outboundIter T { ot with done := false } := by
  refine ⟨?_, ?_, rfl, rfl⟩
  · intro hd
    simp [OffensiveHost.inboundIter, ConnectBackHost.inboundIter, hd]
  · intro hs
    simp [OffensiveHost.outboundIter, ConnectBackHost.outboundIter, hs]

/-- C10 (amended), at a cancelled inbound pass and a stopped outbound pass. -/
theorem cancellation_and_stop_polls_witness :
    sampleCancelledIn.done = true ∧ sampleStoppedOut.stop = true
      ∧ OffensiveHost.inboundIter Nat sampleOffensive sampleCancelledIn
          = ([Ev.print "child context done in offense go routine\n"], Flow.ret)
      ∧ OffensiveHost.outboundIter Nat sampleOffensive sampleStoppedOut = ([], Flow.ret) :=
  ⟨rfl, rfl,
    ((cancellation_and_stop_polls sampleOffensive sampleCancelledIn sampleStoppedOut).1 rfl).1,
    ((cancellation_and_stop_polls sampleOffensive sampleCancelledIn sampleStoppedOut).2.1 rfl).1⟩

end Relay

/-! ## The `Start` methods: theorems -/

section StartTheorems

variable {Sock T : Type}

/-- What `ConnectBackHost.Start` does after a successful setup.  The
command was not started when the deferred `Kill` and `Release` took their
receiver, so the method panics while returning.  The count it had reached
takes a failure of `pts.Close()` or of `Kill()` twice, a failure of
`Release()` once, and leaves out a failure of `master.Close()` or of
`cb.socket.Close()`.  The five teardown calls are made in order. -/
theorem ConnectBackHost_Start_errorCount (cb : ConnectBackHost Sock) (pCtx : Context)
    (env : ConnectBackEnv T) (h1 : env.ptyAlloc = none) (h2 : env.getShell = none)
    (h3 : execCmdStart env.processNil env.shellStart = none) :
    (cb.Start pCtx env).panicked = true
      ∧ (cb.Start pCtx env).errorCount
        = (if env.ptsClose.isSome then 2 else 0) + (if env.release.isSome then 1 else 0)
          + (if env.kill.isSome then 2 else 0)
      ∧ (ConnectBackHost.teardown env).1.filter (fun e => !e.isPrint)
        = [Ev.close Handle.pts, Ev.close Handle.master, Ev.release, Ev.kill,
            Ev.close Handle.socket] := by
  rcases env with ⟨pa, gs, pn, ss, pump, pc, mc, rl, kl, sc⟩
  simp only at h1 h2 h3
  subst h1 h2
  cases pn with
  | false => simp [execCmdStart] at h3
  | true =>
    simp only [execCmdStart, if_true] at h3
    subst h3
    cases pc <;> cases rl <;> cases kl <;>
      simp [ConnectBackHost.Start, ConnectBackHost.teardown, Ev.isPrint, Id.run, execCmdStart]

/-- C1, evaluated where the code departs from it.  Setup succeeds, the pump
has finished, and of the five teardown calls only `Kill` fails (the process
was released by the call before it).  One step has failed; the five calls
are made in order; the count reaches 2, because the test after
`cb.socket.Close()` reads the error of `Kill` again; and the method does
not return: the deferred `Kill` and `Release`, bound to a nil
`cb.shell.Process`, panic. -/
theorem ConnectBackHost_Start_panics_and_miscounts :
    sampleKillFails.ptyAlloc = none
      ∧ sampleKillFails.getShell = none
      ∧ execCmdStart sampleKillFails.processNil sampleKillFails.shellStart = none
      ∧ sampleKillFails.failed = 1
      ∧ ConnectBackHost.teardown sampleKillFails
          = ([Ev.close Handle.pts, Ev.close Handle.master, Ev.release, Ev.kill,
              Ev.print "Error killing shell process on exit: os: process already released\n",
              Ev.close Handle.socket,
              Ev.print "Error killing shell process on exit: os: process already released\n"],
              2)
      ∧ (ConnectBackHost.Start sampleConnectBack sampleContext sampleKillFails).errorCount = 2
      ∧ (ConnectBackHost.Start sampleConnectBack sampleContext sampleKillFails).panicked = true
      ∧ (ConnectBackHost.Start sampleConnectBack sampleContext sampleKillFails).trace
          = [Ev.ptyAlloc, Ev.getShell, Ev.shellStart]
            ++ (ConnectBackHost.teardown sampleKillFails).1
            ++ [Ev.cancel, Ev.panic, Ev.panic, Ev.close Handle.pts, Ev.close Handle.master] := by
  decide

/-- C8: when enabling raw mode succeeded, `OffensiveHost.Start` returns a nil
error and a count equal to the number of failing teardown calls, and after
the pump it makes, whatever fails, exactly the five calls: restore the
terminal with the state saved at enable, close the socket, close standard
input, close standard output, close standard error, in this order. -/
theorem OffensiveHost_Start_teardown (off : OffensiveHost Sock) (pCtx : Context)
    (env : OffensiveEnv T) (h : env.enable.2 = 0) :
    (off.Start pCtx env).err = none
      ∧ (off.Start pCtx env).errorCount = env.failed env.enable.1
      ∧ (off.Start pCtx env).trace
        = [Ev.enableRaw off.stdin] ++ env.pump ++ (OffensiveHost.teardown off env env.enable.1).1
          ++ [Ev.cancel]
      ∧ (OffensiveHost.teardown off env env.enable.1).1.filter (fun e => !e.isPrint)
        = [Ev.disableRaw off.stdin env.enable.1, Ev.close Handle.socket, Ev.close off.stdin,
            Ev.close off.stdout, Ev.close off.stderr]
      ∧ (off.Start pCtx env).panicked = false := by
  rcases env with ⟨⟨tok, en⟩, txt, pump, dis, sc, ic, oc, ec⟩
  simp only at h
  subst h
  by_cases hd : dis tok = 0 <;> cases sc <;> cases ic <;> cases oc <;> cases ec <;>
    simp [OffensiveHost.Start, OffensiveHost.teardown, OffensiveEnv.failed, Ev.isPrint, Id.run, hd]

/-- C8, at a run in which only closing standard input fails: count 1. -/
theorem OffensiveHost_Start_teardown_witness :
    sampleOffensiveEnv.enable.2 = 0
      ∧ (OffensiveHost.Start sampleOffensive sampleContext sampleOffensiveEnv).err = none
      ∧ (OffensiveHost.Start sampleOffensive sampleContext sampleOffensiveEnv).errorCount = 1 :=
  ⟨rfl,
    (OffensiveHost_Start_teardown sampleOffensive sampleContext sampleOffensiveEnv rfl).1,
    (OffensiveHost_Start_teardown sampleOffensive sampleContext sampleOffensiveEnv rfl).2.1⟩

/-- C7, as stated, fails: the Host that `NewHost` returns for a connect-back
descriptor without the shell flag holds `os.Stdout`, and its `Start` writes
one line to it with `fmt.Printf`. -/
theorem LAMEConnectBackHost_Start_prints :
    ∃ host, (NewHost samplePeerLame sampleGetter).host = some host
      ∧ (host.Start sampleContext sampleStartEnv).trace
          = [Ev.print "Eww, who asked for a lame connect back host? gross\n"]
      ∧ ¬ (∀ e ∈ (host.Start sampleContext sampleStartEnv).trace, ∀ h ∈ host.handles,
            e.touches h = false) :=
  ⟨Host.lame sampleLame, by decide, by decide, by decide⟩

/-- C7 (amended): for every connect-back descriptor without the shell flag
for which client acquisition succeeds, the Host returned by `NewHost` owns
the acquired socket and its `Start`, for every context, returns a nil error
and the count 0; its only effect is one fixed line printed to standard
output: no read, write or close on the socket, on standard input or on
standard error, and no read or close on standard output. -/
theorem degenerate_Start_inert (peer : Peer) (c : ConnectionGetter Sock) (s : Sock)
    (pCtx : Context) (env : StartEnv T) (h1 : peer.ConnectionType = "connect-back")
    (h2 : peer.Shell = false)
    (h3 : c.GetConnectionFromClient peer.RPort peer.Address peer.Shell = Except.ok s) :
    ∃ host, (NewHost peer c).host = some host
      ∧ host.socket = s
      ∧ (host.Start pCtx env).err = none
      ∧ (host.Start pCtx env).errorCount = 0
      ∧ (host.Start pCtx env).trace
          = [Ev.print "Eww, who asked for a lame connect back host? gross\n"]
      ∧ (host.Start pCtx env).panicked = false
      ∧ ∀ e ∈ (host.Start pCtx env).trace, ∀ h, h ≠ Handle.stdout → e.touches h = false := by
  have hno : ¬ peer.ConnectionType = "offense" := by
    rw [h1]
    decide
  refine ⟨Host.lame ⟨s, Handle.stdin, Handle.stdout, Handle.stderr⟩, ?_, rfl, rfl, rfl, rfl,
    rfl, ?_⟩
  · unfold NewHost
    rw [if_neg hno, if_pos h1, h3]
    simp [h2]
  · intro e he h hh
    simp only [Host.Start, LAMEConnectBackHost.Start, List.mem_singleton] at he
    subst he
    simp [Ev.touches, hh]

/-- C7 (amended), at a connect-back descriptor without the shell flag. -/
theorem degenerate_Start_inert_witness :
    ∃ host, (NewHost samplePeerLame sampleGetter).host = some host
      ∧ host.socket = 2
      ∧ (host.Start sampleContext sampleStartEnv).err = none
      ∧ (host.Start sampleContext sampleStartEnv).errorCount = 0
      ∧ (host.Start sampleContext sampleStartEnv).trace
          = [Ev.print "Eww, who asked for a lame connect back host? gross\n"]
      ∧ (host.Start sampleContext sampleStartEnv).panicked = false
      ∧ ∀ e ∈ (host.Start sampleContext sampleStartEnv).trace, ∀ h, h ≠ Handle.stdout →
          e.touches h = false :=
  degenerate_Start_inert samplePeerLame sampleGetter 2 sampleContext sampleStartEnv rfl rfl rfl

end StartTheorems

end Netpuppy
